import Mathlib

/-!
Verification of the monitoring core of `cosmic_pinger` (src/src/main.rs).

The embedding models the pure decision logic of `run_tray`'s monitoring
cycle: target normalization, the fail-streak debouncer, the previous/current
diff producing notification events, the aggregate health flag, and the
fail-streak pruning.  Network effects (the actual HEAD/GET requests and the
`ping` subprocess) are abstracted as outcome parameters; the classification
logic around them (`check_target`, `do_http_check`, `fetch_via_get`,
`summarize_http_status`) is embedded faithfully.

The `fail_streaks : HashMap<String, u8>` of the source is modelled as an
association list with no duplicate keys maintained by insertion; `u8`
arithmetic is modelled on `Nat` with explicit saturation at 255.
-/

namespace CosmicPinger

/-- `FAIL_STREAK_THRESHOLD: u8 = 2` (src/src/main.rs line 26). -/
def FAIL_STREAK_THRESHOLD : Nat := 2

/-- `str::trim`: drop leading and trailing whitespace.  Implemented over the
character list so that it reduces in the kernel; agrees with Rust's `trim` on
ASCII whitespace. -/
def trimString (s : String) : String :=
  String.mk (((s.data.dropWhile Char.isWhitespace).reverse.dropWhile
    Char.isWhitespace).reverse)

/-- `str::starts_with`: prefix test over the character list so that it
reduces in the kernel. -/
def strStartsWith (s pre : String) : Bool :=
  pre.data.isPrefixOf s.data

/-- `normalize_target` (src/src/main.rs lines 76-83): trim, drop if empty. -/
def normalize_target (raw : String) : Option String :=
  let trimmed := trimString raw
  if trimmed = "" then none else some trimmed

/-- Lookup in the association-list model of `HashMap<String, u8>`. -/
def alGet (m : List (String × Nat)) (k : String) : Option Nat :=
  match m with
  | [] => none
  | (k2, v) :: rest => if k2 = k then some v else alGet rest k

/-- Insert/overwrite in the association-list model of `HashMap<String, u8>`. -/
def alSet (m : List (String × Nat)) (k : String) (v : Nat) : List (String × Nat) :=
  match m with
  | [] => [(k, v)]
  | (k2, v2) :: rest => if k2 = k then (k, v) :: rest else (k2, v2) :: alSet rest k v

/-- `u8::saturating_add(1)` on the `Nat` model of a `u8` value. -/
def satIncr (n : Nat) : Nat := min (n + 1) 255

/-- One debouncer step: the body of the per-result loop of `run_tray`
(src/src/main.rs lines 188-205).  Given the running fail map and one raw
probe result `(host, success, msg)`, returns the updated fail map, the
effective reachability, and the display label. -/
def processResult (threshold : Nat) (fm : List (String × Nat))
    (host : String) (success : Bool) (msg : String) :
    List (String × Nat) × Bool × String :=
  let cur := (alGet fm host).getD 0
  if success then
    (alSet fm host 0, true, msg)
  else
    let n := satIncr cur
    let fm2 := alSet fm host n
    if threshold ≤ n then
      (fm2, false, msg)
    else
      (fm2, true, msg ++ " (falha " ++ toString n ++ "/" ++ toString threshold ++ ")")

/-- The notification condition of src/src/main.rs lines 214-218: look up the
host in the previous results; emit when absent (`unwrap_or(true)`) or when the
previous effective value differs. -/
def notifCond (prior : List (String × Bool × String)) (host : String) (eff : Bool) : Bool :=
  match prior.find? (fun p => p.1 = host) with
  | some p => p.2.1 != eff
  | none => true

/-- The per-result loop of `run_tray` (src/src/main.rs lines 187-222):
threads the fail map left-to-right over the raw results, producing the
updated fail map, the final results, the notification list, and
`derived_all_up`. -/
def processAll (firstRun : Bool) (prior : List (String × Bool × String))
    (fm : List (String × Nat)) :
    List (String × Bool × String) →
      List (String × Nat) × List (String × Bool × String) × List (String × Bool) × Bool
  | [] => (fm, [], [], true)
  | (host, success, msg) :: rest =>
    let r := processResult FAIL_STREAK_THRESHOLD fm host success msg
    let eff := r.2.1
    let disp := r.2.2
    let rec2 := processAll firstRun prior r.1 rest
    let notifs :=
      if firstRun then rec2.2.2.1
      else if notifCond prior host eff then (host, eff) :: rec2.2.2.1
      else rec2.2.2.1
    (rec2.1, (host, eff, disp) :: rec2.2.1, notifs, eff && rec2.2.2.2)

/-- Raw results of one cycle (src/src/main.rs lines 162-176): placeholder for
an empty target list; otherwise probe each normalized target; placeholder if
nothing survived normalization. -/
def rawResults (targets : List String) (probe : String → Bool × String) :
    List (String × Bool × String) :=
  if targets = [] then
    [("Nenhum site configurado", true, "-")]
  else
    let rs := targets.filterMap fun t =>
      (normalize_target t).map fun cleaned =>
        (cleaned, (probe cleaned).1, (probe cleaned).2)
    if rs = [] then [("Nenhum site válido", true, "-")] else rs

/-- The published outcome of one monitoring cycle: the fields of
`PingerState` updated under the lock (src/src/main.rs lines 227-234) plus the
notification list dispatched afterwards. -/
structure CycleOutput where
  results : List (String × Bool × String)
  failStreaks : List (String × Nat)
  notifications : List (String × Bool)
  allUp : Bool
  firstRun : Bool
  deriving Repr, DecidableEq

/-- One full monitoring cycle of `run_tray` (src/src/main.rs lines 157-241):
build raw results, run the debounce/diff loop, prune the fail map to hosts
present in the final results, publish results and clear the first-run flag. -/
def runCycle (targets : List String) (probe : String → Bool × String)
    (priorResults : List (String × Bool × String))
    (streaks : List (String × Nat)) (firstRun : Bool) : CycleOutput :=
  let raw := rawResults targets probe
  let out := processAll firstRun priorResults streaks raw
  let validHosts := out.2.1.map (fun r => r.1)
  let pruned := out.1.filter (fun kv => validHosts.contains kv.1)
  { results := out.2.1
    failStreaks := pruned
    notifications := out.2.2.1
    allUp := out.2.2.2
    firstRun := false }

/-- Abstract outcome of one HTTP request: a response with a status code, a
timeout error, or any other transport error. -/
inductive HttpResult where
  | ok (status : Nat)
  | timeoutE
  | otherE
  deriving Repr, DecidableEq

/-- `summarize_http_status` (src/src/main.rs lines 337-341):
`status.is_success() || status.is_redirection()` with the `"HTTP {code}"`
label. -/
def summarize_http_status (status : Nat) : Bool × String :=
  let ok := (200 ≤ status && status ≤ 299) || (300 ≤ status && status ≤ 399)
  (ok, "HTTP " ++ toString status)

/-- `fetch_via_get` (src/src/main.rs lines 323-335), abstracted over the GET
outcome. -/
def fetch_via_get (getResult : HttpResult) : Bool × String :=
  match getResult with
  | .ok s => summarize_http_status s
  | .timeoutE => (false, "HTTP timeout")
  | .otherE => (false, "HTTP erro")

/-- `do_http_check` (src/src/main.rs lines 304-321), abstracted over the HEAD
and GET outcomes: 405 or a non-timeout HEAD error falls back to GET; a HEAD
timeout is reported directly. -/
def do_http_check (headResult getResult : HttpResult) : Bool × String :=
  match headResult with
  | .ok s => if s = 405 then fetch_via_get getResult else summarize_http_status s
  | .timeoutE => (false, "HTTP timeout")
  | .otherE => fetch_via_get getResult

/-- `check_target` (src/src/main.rs lines 292-302): URL-prefixed targets go
through HTTP (or fail with "HTTP indisponível" when the client is missing);
everything else goes to `do_ping`.  `httpClient` models `Option<&Client>`
presence; `httpOutcome` stands for the value of `do_http_check` on this
target and `pingOutcome` for the value of `do_ping`. -/
def check_target (target : String) (httpClient : Bool)
    (httpOutcome pingOutcome : Bool × String) : Bool × String :=
  if strStartsWith target "http://" || strStartsWith target "https://" then
    if httpClient then httpOutcome else (false, "HTTP indisponível")
  else
    pingOutcome

end CosmicPinger

namespace CosmicPinger

/-! ### Helper lemmas about the cycle loop -/

/-- The hosts of the final results are exactly the hosts of the raw results,
in order. -/
lemma processAll_fst (firstRun : Bool) (prior : List (String × Bool × String))
    (fm : List (String × Nat)) (raw : List (String × Bool × String)) :
    ((processAll firstRun prior fm raw).2.1).map (fun r => r.1) = raw.map (fun r => r.1) := by
  induction raw generalizing fm with
  | nil => simp [processAll]
  | cons r rest ih =>
    obtain ⟨host, success, msg⟩ := r
    simp only [processAll, List.map_cons]
    rw [ih]

/-- `derived_all_up` equals the conjunction of the effective flags of the
final results. -/
lemma processAll_allUp (firstRun : Bool) (prior : List (String × Bool × String))
    (fm : List (String × Nat)) (raw : List (String × Bool × String)) :
    (processAll firstRun prior fm raw).2.2.2 =
      (processAll firstRun prior fm raw).2.1.all (fun r => r.2.1) := by
  induction raw generalizing fm with
  | nil => simp [processAll]
  | cons r rest ih =>
    obtain ⟨host, success, msg⟩ := r
    simp only [processAll, List.all_cons]
    rw [ih]

/-- On the first run the loop pushes no notification at all. -/
lemma processAll_notifs_first (prior : List (String × Bool × String))
    (fm : List (String × Nat)) (raw : List (String × Bool × String)) :
    (processAll true prior fm raw).2.2.1 = [] := by
  induction raw generalizing fm with
  | nil => simp [processAll]
  | cons r rest ih =>
    obtain ⟨host, success, msg⟩ := r
    simp only [processAll, if_true]
    exact ih _

/-- After the first run the notification list is exactly the final results
filtered through the diff condition against the prior snapshot. -/
lemma processAll_notifs_diff (prior : List (String × Bool × String))
    (fm : List (String × Nat)) (raw : List (String × Bool × String)) :
    (processAll false prior fm raw).2.2.1 =
      (processAll false prior fm raw).2.1.filterMap
        (fun r => if notifCond prior r.1 r.2.1 then some (r.1, r.2.1) else none) := by
  induction raw generalizing fm with
  | nil => simp [processAll]
  | cons r rest ih =>
    obtain ⟨host, success, msg⟩ := r
    simp only [processAll, Bool.false_eq_true, if_false, List.filterMap_cons]
    cases hc : notifCond prior host (processResult FAIL_STREAK_THRESHOLD fm host success msg).2.1 with
    | true => simp only [hc, if_true]; rw [ih]
    | false => simp only [hc, Bool.false_eq_true, if_false]; rw [ih]

/-- Filtering with an optional projection is filtering then mapping. -/
lemma filterMap_if_eq (c : α → Bool) (g : α → β) (l : List α) :
    l.filterMap (fun r => if c r then some (g r) else none) = (l.filter c).map g := by
  induction l with
  | nil => simp
  | cons x xs ih =>
    cases hc : c x with
    | true => simp [List.filterMap_cons, List.filter_cons, hc, ih]
    | false => simp [List.filterMap_cons, List.filter_cons, hc, ih]

/-- The hosts of the probed raw results are the normalized targets. -/
lemma probed_fst (targets : List String) (probe : String → Bool × String) :
    (targets.filterMap fun t =>
        (normalize_target t).map fun cleaned =>
          (cleaned, (probe cleaned).1, (probe cleaned).2)).map (fun r => r.1) =
      targets.filterMap normalize_target := by
  induction targets with
  | nil => simp
  | cons t rest ih =>
    cases hn : normalize_target t with
    | none => simp [List.filterMap_cons, hn, ih]
    | some c => simp [List.filterMap_cons, hn, ih]

/-- The hosts of the raw results, in each of the three branches of
`run_tray`'s raw-result construction. -/
lemma rawResults_fst (targets : List String) (probe : String → Bool × String) :
    (rawResults targets probe).map (fun r => r.1) =
      (if targets = [] then ["Nenhum site configurado"]
       else if targets.filterMap normalize_target = [] then ["Nenhum site válido"]
       else targets.filterMap normalize_target) := by
  by_cases h : targets = []
  · simp [rawResults, h]
  · simp only [rawResults, h, if_false]
    by_cases h2 : (targets.filterMap fun t =>
        (normalize_target t).map fun cleaned =>
          (cleaned, (probe cleaned).1, (probe cleaned).2)) = []
    · have h3 : targets.filterMap normalize_target = [] := by
        rw [← probed_fst targets probe, h2]; rfl
      simp [h2, h3]
    · have h3 : targets.filterMap normalize_target ≠ [] := by
        intro hcon
        apply h2
        have := probed_fst targets probe
        rw [hcon] at this
        exact List.map_eq_nil_iff.mp this
      simp [h2, h3, probed_fst]

end CosmicPinger

namespace CosmicPinger

/-! ### Claim theorems -/

/-- C1.  Debouncer step: on a reachable outcome the streak is reset to 0 and
the effective status is reachable with the original label; on an unreachable
outcome the streak is incremented saturating at the `u8` maximum 255, and with
threshold 2 a new streak of at least 2 yields effective unreachable with the
original label while a new streak of 1 yields effective reachable with the
label annotated with the fail count (the source's locale writes `falha` for
`fail`). -/
theorem debouncer_step_correct (fm : List (String × Nat)) (host msg : String) :
    processResult 2 fm host true msg = (alSet fm host 0, true, msg)
    ∧ (2 ≤ satIncr ((alGet fm host).getD 0) →
        processResult 2 fm host false msg =
          (alSet fm host (satIncr ((alGet fm host).getD 0)), false, msg))
    ∧ (satIncr ((alGet fm host).getD 0) = 1 →
        processResult 2 fm host false msg =
          (alSet fm host 1, true, msg ++ " (falha 1/2)"))
    ∧ satIncr ((alGet fm host).getD 0) ≤ 255
    ∧ 1 ≤ satIncr ((alGet fm host).getD 0) := by
  refine ⟨rfl, fun h => ?_, fun h => ?_, ?_, ?_⟩
  · simp only [processResult, Bool.false_eq_true, if_false]
    rw [if_pos h]
  · simp only [processResult, Bool.false_eq_true, if_false]
    rw [h, if_neg (by omega)]
    refine congrArg (fun l => (alSet fm host 1, true, l)) ?_
    simp only [String.append_assoc]
    exact congrArg (fun t => msg ++ t) (by decide)
  · exact min_le_right _ _
  · unfold satIncr; omega

/-- Witness for C1 at concrete streak values 1 (crossing the threshold) and
0 (staying below it). -/
theorem debouncer_step_correct_witness :
    processResult 2 [("a", 1)] "a" false "OFFLINE" = ([("a", 2)], false, "OFFLINE")
    ∧ processResult 2 [] "a" false "OFFLINE" =
        ([("a", 1)], true, "OFFLINE (falha 1/2)") :=
  ⟨(debouncer_step_correct [("a", 1)] "a" "OFFLINE").2.1 (by decide),
   (debouncer_step_correct [] "a" "OFFLINE").2.2.1 (by decide)⟩

/-- The probe used by the concrete diff example of C2: `C` is reachable, `A`
and `B` are not. -/
def exProbe : String → Bool × String :=
  fun t => if t = "C" then (true, "OK") else (false, "OFFLINE")

/-- C2.  Diff step: after the first cycle, the notification list is exactly
the new results whose target is absent from the prior snapshot or carries a
different effective value there; and on the concrete example with prior
`[(A,true),(B,false)]` and new effective results `[(A,false),(B,false),(C,true)]`
the emitted events are exactly `(A,false)` and `(C,true)`. -/
theorem diff_step_correct :
    (∀ (targets : List String) (probe : String → Bool × String)
        (prior : List (String × Bool × String)) (streaks : List (String × Nat)),
      (runCycle targets probe prior streaks false).notifications =
        (runCycle targets probe prior streaks false).results.filterMap
          (fun r => if notifCond prior r.1 r.2.1 then some (r.1, r.2.1) else none))
    ∧ (runCycle ["A", "B", "C"] exProbe [("A", true, "l"), ("B", false, "l")]
         [("A", 1), ("B", 1)] false).results.map (fun r => (r.1, r.2.1)) =
        [("A", false), ("B", false), ("C", true)]
    ∧ (runCycle ["A", "B", "C"] exProbe [("A", true, "l"), ("B", false, "l")]
         [("A", 1), ("B", 1)] false).notifications = [("A", false), ("C", true)] := by
  refine ⟨fun targets probe prior streaks => ?_, by decide, by decide⟩
  simp only [runCycle]
  exact processAll_notifs_diff prior streaks (rawResults targets probe)

/-- C3.  First-cycle silence: a cycle run with `first_run = true` emits no
notification whatever the targets and probe outcomes are, and the published
snapshot has the first-run flag cleared. -/
theorem first_cycle_silence (targets : List String) (probe : String → Bool × String)
    (prior : List (String × Bool × String)) (streaks : List (String × Nat)) :
    (runCycle targets probe prior streaks true).notifications = []
    ∧ (runCycle targets probe prior streaks true).firstRun = false := by
  constructor
  · simp only [runCycle]
    exact processAll_notifs_first prior streaks (rawResults targets probe)
  · rfl

/-- C4.  Aggregate correctness: `all_up` is true exactly when every entry of
the cycle's results is effectively reachable, and an empty target list (whose
single placeholder entry is reachable) yields `all_up = true`. -/
theorem aggregate_correct (targets : List String) (probe : String → Bool × String)
    (prior : List (String × Bool × String)) (streaks : List (String × Nat))
    (fr : Bool) :
    ((runCycle targets probe prior streaks fr).allUp = true ↔
      ∀ r ∈ (runCycle targets probe prior streaks fr).results, r.2.1 = true)
    ∧ (runCycle [] probe prior streaks fr).allUp = true := by
  constructor
  · simp only [runCycle]
    rw [processAll_allUp]
    exact List.all_eq_true
  · have h := processAll_allUp fr prior streaks (rawResults [] probe)
    simp only [runCycle]
    rw [h]
    simp [rawResults, processAll, processResult]

/-- C5 counterexample.  With an empty target list, a prior snapshot from a
non-empty cycle (no placeholder entry) and the first cycle already past, the
cycle emits one NotificationEvent for the placeholder entry, not zero. -/
theorem empty_config_cex :
    (runCycle [] (fun _ => (true, "OK")) [("google.com", true, "OK")] [] false).notifications =
      [("Nenhum site configurado", true)]
    ∧ (runCycle [] (fun _ => (true, "OK")) [("google.com", true, "OK")] [] false).notifications ≠
        [] :=
  ⟨by decide, by decide⟩

/-- C5 (amended).  An empty target list produces exactly the single
placeholder result (reachable, label "-"), skips probing (the outcome does
not depend on the probe function), and sets `all_up = true`; it emits zero
NotificationEvents exactly when it is the first cycle or the prior snapshot
already lists the placeholder as reachable — otherwise it emits the single
spurious event for the placeholder. -/
theorem empty_config_behavior (probe probe2 : String → Bool × String)
    (prior : List (String × Bool × String)) (streaks : List (String × Nat))
    (fr : Bool) :
    (runCycle [] probe prior streaks fr).results = [("Nenhum site configurado", true, "-")]
    ∧ (runCycle [] probe prior streaks fr).allUp = true
    ∧ runCycle [] probe prior streaks fr = runCycle [] probe2 prior streaks fr
    ∧ (runCycle [] probe prior streaks fr).notifications =
        (if fr then []
         else if notifCond prior "Nenhum site configurado" true then
           [("Nenhum site configurado", true)]
         else []) := by
  refine ⟨rfl, rfl, rfl, ?_⟩
  simp only [runCycle, rawResults, if_pos rfl, processAll, processResult]
  cases fr with
  | true => rfl
  | false =>
    cases hc : notifCond prior "Nenhum site configurado" true with
    | true => simp [hc]
    | false => simp [hc]

/-- C6 counterexample.  After a cycle with an empty target list the fail-map
key set is the placeholder string, which is not a member of the (empty)
current target set. -/
theorem streak_pruning_cex :
    (runCycle [] (fun _ => (true, "OK")) [] [] false).failStreaks =
      [("Nenhum site configurado", 0)]
    ∧ ¬ ("Nenhum site configurado" ∈ ([] : List String)) :=
  ⟨by decide, by decide⟩

/-- C6 (amended).  After every cycle the fail-map keys are a subset of the
hosts of that cycle's result entries (so a target removed from the
configuration loses its entry), every emitted event names one of those hosts
(so a removed target produces no orphan notification), and those hosts are
the normalized target list except in the two placeholder cases, where they
are the corresponding placeholder string. -/
theorem streak_pruning_amended (targets : List String) (probe : String → Bool × String)
    (prior : List (String × Bool × String)) (streaks : List (String × Nat))
    (fr : Bool) :
    ((runCycle targets probe prior streaks fr).failStreaks.all
      (fun kv => ((runCycle targets probe prior streaks fr).results.map
        (fun r => r.1)).contains kv.1)) = true
    ∧ ((runCycle targets probe prior streaks fr).notifications.all
      (fun e => ((runCycle targets probe prior streaks fr).results.map
        (fun r => r.1)).contains e.1)) = true
    ∧ (runCycle targets probe prior streaks fr).results.map (fun r => r.1) =
        (if targets = [] then ["Nenhum site configurado"]
         else if targets.filterMap normalize_target = [] then ["Nenhum site válido"]
         else targets.filterMap normalize_target) := by
  refine ⟨?_, ?_, ?_⟩
  · simp only [runCycle]
    rw [List.all_eq_true]
    intro kv hkv
    exact (List.mem_filter.mp hkv).2
  · rw [List.all_eq_true]
    intro e he
    apply List.elem_eq_true_of_mem
    simp only [runCycle] at he ⊢
    cases fr with
    | true =>
      rw [processAll_notifs_first] at he
      exact absurd he (List.not_mem_nil e)
    | false =>
      rw [processAll_notifs_diff, filterMap_if_eq] at he
      obtain ⟨r, hr, rfl⟩ := List.mem_map.mp he
      exact List.mem_map.mpr ⟨r, List.mem_of_mem_filter hr, rfl⟩
  · simp only [runCycle]
    rw [processAll_fst]
    exact rawResults_fst targets probe

/-- C7 counterexample.  A target configured twice and absent from the prior
snapshot gets two NotificationEvents in one cycle. -/
theorem notify_once_cex :
    (runCycle ["A", "A"] (fun _ => (true, "OK")) [("B", true, "l")] [] false).notifications =
      [("A", true), ("A", true)]
    ∧ 2 ≤ (runCycle ["A", "A"] (fun _ => (true, "OK")) [("B", true, "l")] []
        false).notifications.countP (fun e => e.1 = "A") :=
  ⟨by decide, by decide⟩

/-- C7 (amended).  When the normalized target list has no duplicate entries,
the targets named by the cycle's NotificationEvents are pairwise distinct, so
each target is named by at most one event per cycle. -/
theorem notify_once_amended (targets : List String) (probe : String → Bool × String)
    (prior : List (String × Bool × String)) (streaks : List (String × Nat))
    (fr : Bool) (hnd : (targets.filterMap normalize_target).Nodup) :
    ((runCycle targets probe prior streaks fr).notifications.map (fun e => e.1)).Nodup := by
  have hosts_nd : ((runCycle targets probe prior streaks fr).results.map (fun r => r.1)).Nodup := by
    simp only [runCycle]
    rw [processAll_fst, rawResults_fst]
    by_cases h : targets = []
    · simp [h]
    · by_cases h2 : targets.filterMap normalize_target = []
      · simp [h, h2]
      · simpa [h, h2] using hnd
  cases fr with
  | true =>
    simp only [runCycle]
    rw [processAll_notifs_first]
    exact List.nodup_nil
  | false =>
    refine List.Nodup.sublist ?_ hosts_nd
    simp only [runCycle]
    rw [processAll_notifs_diff, filterMap_if_eq, List.map_map]
    have h1 : List.Sublist
        (List.filter (fun r => notifCond prior r.1 r.2.1)
          (processAll false prior streaks (rawResults targets probe)).2.1)
        (processAll false prior streaks (rawResults targets probe)).2.1 :=
      List.filter_sublist _
    exact List.Sublist.map _ h1

/-- Witness for C7 (amended) at a duplicate-free two-target configuration. -/
theorem notify_once_amended_witness :
    ((runCycle ["A", "B"] (fun _ => (true, "OK")) [] [] false).notifications.map
      (fun e => e.1)).Nodup :=
  notify_once_amended ["A", "B"] (fun _ => (true, "OK")) [] [] false (by decide)

/-- C8.  HTTP probe classification: a HEAD response with status 405 and a
non-timeout HEAD error fall back to GET; a status is classified reachable
with label "HTTP {code}" exactly when it lies in 200..399; a timeout on
either request yields unreachable "HTTP timeout"; any other transport error
after the GET fallback yields unreachable "HTTP erro" (the source's locale
string for "HTTP error"); and for a target with an `http://` or `https://`
prefix the prober returns the HTTP check's outcome. -/
theorem http_probe_correct (s : Nat) (g : HttpResult) (t : String)
    (hp pg : Bool × String) :
    (s ≠ 405 → do_http_check (.ok s) g =
      (decide (200 ≤ s ∧ s ≤ 399), "HTTP " ++ toString s))
    ∧ do_http_check (.ok 405) g = fetch_via_get g
    ∧ do_http_check .timeoutE g = (false, "HTTP timeout")
    ∧ do_http_check .otherE g = fetch_via_get g
    ∧ fetch_via_get (.ok s) = (decide (200 ≤ s ∧ s ≤ 399), "HTTP " ++ toString s)
    ∧ fetch_via_get .timeoutE = (false, "HTTP timeout")
    ∧ fetch_via_get .otherE = (false, "HTTP erro")
    ∧ ((strStartsWith t "http://" || strStartsWith t "https://") = true →
        check_target t true hp pg = hp) := by
  have hsum : summarize_http_status s = (decide (200 ≤ s ∧ s ≤ 399), "HTTP " ++ toString s) := by
    simp only [summarize_http_status]
    refine congrArg (fun b => ((b : Bool), "HTTP " ++ toString s)) ?_
    apply Bool.eq_iff_iff.mpr
    simp only [Bool.or_eq_true, Bool.and_eq_true, decide_eq_true_eq]
    omega
  refine ⟨fun h => ?_, rfl, rfl, rfl, hsum, rfl, rfl, fun h => ?_⟩
  · simp only [do_http_check, if_neg h]
    exact hsum
  · simp [check_target, h]

/-- Witness for C8 at status 200 with a failing GET fallback and an
`https://` target. -/
theorem http_probe_correct_witness :
    do_http_check (.ok 200) .otherE = (true, "HTTP 200")
    ∧ check_target "https://example.com" true (true, "HTTP 200") (false, "OFFLINE") =
        (true, "HTTP 200") :=
  ⟨((http_probe_correct 200 .otherE "x" (true, "x") (true, "x")).1 (by decide)).trans
      (by decide),
   (http_probe_correct 200 .otherE "https://example.com" (true, "HTTP 200")
      (false, "OFFLINE")).2.2.2.2.2.2.2 (by decide)⟩

/-- C9.  A non-empty target list whose entries all normalize to nothing
probes no target (the outcome is independent of the probe function) and
produces the single "Nenhum site válido" placeholder, reachable with label
"-", so `all_up` stays true; this placeholder differs from the empty-list
placeholder. -/
theorem all_invalid_targets (targets : List String) (probe probe2 : String → Bool × String)
    (prior : List (String × Bool × String)) (streaks : List (String × Nat))
    (fr : Bool) (hne : targets ≠ [])
    (hall : targets.filterMap normalize_target = []) :
    (runCycle targets probe prior streaks fr).results = [("Nenhum site válido", true, "-")]
    ∧ (runCycle targets probe prior streaks fr).allUp = true
    ∧ runCycle targets probe prior streaks fr = runCycle targets probe2 prior streaks fr
    ∧ "Nenhum site válido" ≠ "Nenhum site configurado" := by
  have hraw : ∀ p : String → Bool × String,
      rawResults targets p = [("Nenhum site válido", true, "-")] := by
    intro p
    have hmap := probed_fst targets p
    rw [hall] at hmap
    have hnil := List.map_eq_nil_iff.mp hmap
    simp [rawResults, hne, hnil]
  refine ⟨?_, ?_, ?_, by decide⟩
  · simp only [runCycle, hraw probe]
    rfl
  · simp only [runCycle, hraw probe]
    rfl
  · simp only [runCycle, hraw probe, hraw probe2]

/-- Witness for C9 at the whitespace-only target list `["  "]`. -/
theorem all_invalid_targets_witness :
    (runCycle ["  "] (fun _ => (false, "x")) [] [] false).results =
      [("Nenhum site válido", true, "-")] :=
  (all_invalid_targets ["  "] (fun _ => (false, "x")) (fun _ => (true, "y")) [] [] false
    (by decide) (by decide)).1

/-- C10.  With no HTTP client, an `http://`- or `https://`-prefixed target is
reported unreachable with label "HTTP indisponível" independently of any HTTP
outcome (no request is consulted), while a bare host/IP target still gets the
ping outcome; `check_target` is total, so the cycle never aborts on this
condition. -/
theorem missing_http_client (t : String) (hp hp2 pg : Bool × String) :
    ((strStartsWith t "http://" || strStartsWith t "https://") = true →
      check_target t false hp pg = (false, "HTTP indisponível"))
    ∧ ((strStartsWith t "http://" || strStartsWith t "https://") = false →
      check_target t false hp pg = pg ∧ check_target t true hp pg = pg)
    ∧ check_target t false hp pg = check_target t false hp2 pg := by
  refine ⟨fun h => ?_, fun h => ⟨?_, ?_⟩, ?_⟩
  · simp [check_target, h]
  · simp [check_target, h]
  · simp [check_target, h]
  · simp only [check_target]
    cases (strStartsWith t "http://" || strStartsWith t "https://") with
    | true => rfl
    | false => rfl

/-- Witness for C10 at an `http://` target and a bare IP target. -/
theorem missing_http_client_witness :
    check_target "http://a" false (true, "HTTP 200") (true, "9 ms") =
      (false, "HTTP indisponível")
    ∧ check_target "1.1.1.1" false (true, "HTTP 200") (true, "9 ms") = (true, "9 ms") :=
  ⟨(missing_http_client "http://a" (true, "HTTP 200") (false, "z") (true, "9 ms")).1
      (by decide),
   ((missing_http_client "1.1.1.1" (true, "HTTP 200") (false, "z") (true, "9 ms")).2.1
      (by decide)).1⟩

end CosmicPinger
